import Mathlib

/-!
Verification of the Spatial Comparison and Aggregation frontend
(CITS5553 Group 15 repository).

The definitions below are a shallow embedding of the TypeScript/JavaScript
sources under `frontend-esri/src` and `src/pages`.  Numbers that the
JavaScript code treats as IEEE doubles are modelled as rationals (`Rat`):
every claim proved here is about exact branching, masking, defaulting and
range logic, none of which depends on floating-point rounding.

Components of the comparison engine itself (grid builder, aggregator,
summarizer, histogram builder) live in the Python backend, which is not part
of this repository snapshot; those definitions are modelled from the spec and
are marked `Modelled from the spec:` in their doc comments.
-/

namespace EsriApp

/-- Embeds `isAcceptedName` (ESRI3DComparisonApp.tsx): a file name is accepted
when, lowercased and trimmed, it ends with `.zip` or `.csv`. -/
def isAcceptedName (name : String) : Bool :=
  let lower := name.toLower.trim
  lower.endsWith ".zip" || lower.endsWith ".csv"

/-- A browser `File` as far as the app inspects it: its name and size. -/
structure FileRec where
  name : String
  size : Nat
deriving DecidableEq

/-- Embeds `isAccepted` (ESRI3DComparisonApp.tsx): truthiness of the file
object and acceptance of its name. -/
def isAccepted : Option FileRec → Bool
  | none => false
  | some f => isAcceptedName f.name

/-- The two upload slots of the Data Loading page. -/
inductive Slot where
  | original
  | dl
deriving DecidableEq

/-- The React state touched by `validateAndSet`: the two stored files, the
per-slot error messages, and the toast message. -/
structure UploadState where
  originalZip : Option FileRec
  dlZip : Option FileRec
  errOriginal : Option String
  errDl : Option String
  toast : Option String
deriving DecidableEq

/-- The error message `validateAndSet` records for a rejected file. -/
def uploadErrorMsg : String := "Only .zip or .csv files are accepted."

/-- The toast message shown for a successful upload of the given slot. -/
def uploadToastMsg : Slot → String
  | Slot.original => "Original ESRI file uploaded successfully."
  | Slot.dl => "DL ESRI file uploaded successfully."

/-- Stored file of a slot. -/
def slotFile : Slot → UploadState → Option FileRec
  | Slot.original, s => s.originalZip
  | Slot.dl, s => s.dlZip

/-- Error message of a slot. -/
def slotErr : Slot → UploadState → Option String
  | Slot.original, s => s.errOriginal
  | Slot.dl, s => s.errDl

/-- Embeds `validateAndSet` (ESRI3DComparisonApp.tsx lines 199 to 224):
`null` clears the slot and its error; a rejected file records an error and
returns early; an accepted file clears the error, is stored, and raises a
toast. -/
def validateAndSet (file : Option FileRec) (kind : Slot) (s : UploadState) :
    UploadState :=
  match file with
  | none =>
      match kind with
      | Slot.original => { s with originalZip := none, errOriginal := none }
      | Slot.dl => { s with dlZip := none, errDl := none }
  | some f =>
      if !isAccepted (some f) then
        match kind with
        | Slot.original => { s with errOriginal := some uploadErrorMsg }
        | Slot.dl => { s with errDl := some uploadErrorMsg }
      else
        match kind with
        | Slot.original =>
            { s with errOriginal := none, originalZip := some f,
                     toast := some (uploadToastMsg Slot.original) }
        | Slot.dl =>
            { s with errDl := none, dlZip := some f,
                     toast := some (uploadToastMsg Slot.dl) }

/-- Claim C9: a file is accepted and stored iff its name, lowercased and
trimmed, ends with `.zip` or `.csv`; a rejected file records an error and
leaves the stored selection of that slot unchanged; passing `null` clears
both the stored file and any error for that slot. -/
theorem validateAndSet_accept_iff (f : FileRec) (k : Slot) (s : UploadState) :
    (slotFile k (validateAndSet (some f) k s)
        = (if isAcceptedName f.name then some f else slotFile k s))
  ∧ (slotErr k (validateAndSet (some f) k s)
        = (if isAcceptedName f.name then none else some uploadErrorMsg))
  ∧ (isAcceptedName f.name
        = ((f.name.toLower.trim).endsWith ".zip"
            || (f.name.toLower.trim).endsWith ".csv"))
  ∧ slotFile k (validateAndSet none k s) = none
  ∧ slotErr k (validateAndSet none k s) = none := by
  refine ⟨?_, ?_, rfl, ?_, ?_⟩ <;>
    cases k <;>
      cases h : isAcceptedName f.name <;>
        simp [validateAndSet, slotFile, slotErr, isAccepted, h]

/-! ### Comparison controls, `readyToRun` and `handleRunComparison` -/

/-- Embeds `ColumnMapping` for one side: the three required field keys
`Northing`, `Easting`, `Assay`, each optionally mapped to a column name. -/
structure ColumnMapping where
  northing : Option String
  easting : Option String
  assay : Option String
deriving DecidableEq

/-- Embeds `mappingComplete` (ESRI3DComparisonApp.tsx lines 147 to 151): all
three required keys are mapped on both sides. -/
def mappingComplete (om dm : ColumnMapping) : Bool :=
  (om.northing.isSome && om.easting.isSome && om.assay.isSome)
    && (dm.northing.isSome && dm.easting.isSome && dm.assay.isSome)

/-- The method option values offered by `ControlsBar` (`METHOD_OPTIONS`,
ESRI3DComparisonApp.tsx lines 1898 to 1902). -/
def METHOD_OPTIONS : List String := ["mean", "median", "max"]

/-- The slice of React state read by `readyToRun` and
`handleRunComparison`. -/
structure CmpState where
  originalZip : Option FileRec
  dlZip : Option FileRec
  originalColumns : List String
  dlColumns : List String
  originalMap : ColumnMapping
  dlMap : ColumnMapping
  analysisRun : Bool
  method : Option String
  gridSize : Option Rat
  busyRun : Bool
deriving DecidableEq

/-- Embeds `readyToRun` (ESRI3DComparisonApp.tsx lines 183 to 192).  Note the
grid-size conjunct in the source is `gridSize !== null && gridSize >= 100`. -/
def readyToRun (s : CmpState) : Bool :=
  s.originalZip.isSome && s.dlZip.isSome
    && decide (0 < s.originalColumns.length)
    && decide (0 < s.dlColumns.length)
    && mappingComplete s.originalMap s.dlMap
    && s.method.isSome
    && (match s.gridSize with
        | none => false
        | some g => decide ((100 : Rat) ≤ g))
    && !s.busyRun

/-- The `minGrid` constant of `ControlsBar` (line 1922). -/
def minGrid : Rat := 1000

/-- The `maxGrid` constant of `ControlsBar` (line 1923). -/
def maxGrid : Rat := 900000

/-- Embeds `isInvalidGridLow` (ControlsBar line 1930): the number input is
non-empty and its numeric value is below `minGrid`. -/
def isInvalidGridLow : Option Rat → Bool
  | none => false
  | some n => decide (n < minGrid)

/-- Embeds `isInvalidGridHigh` (ControlsBar line 1931). -/
def isInvalidGridHigh : Option Rat → Bool
  | none => false
  | some n => decide (maxGrid < n)

/-- What the user typed into the Grid Cell Size number input, as the source
sees it after `Number(val)`: empty string, not a number, or a number. -/
inductive NumInput where
  | empty
  | notNumber
  | num (q : Rat)

/-- Embeds `handleGridInputChange` (ControlsBar lines 1944 to 1954): an empty
input clears `gridSize`, a non-numeric input leaves it unchanged, and any
numeric input is stored without range clamping. -/
def handleGridInputChange (i : NumInput) (gridSize : Option Rat) : Option Rat :=
  match i with
  | NumInput.empty => none
  | NumInput.notNumber => gridSize
  | NumInput.num q => some q

/-- The body of the POST to `/api/analysis/comparison` as assembled by
`runComparison` (api/analysis.ts lines 108 to 146). -/
structure ComparisonRequest where
  original_northing : String
  original_easting : String
  original_assay : String
  dl_northing : String
  dl_easting : String
  dl_assay : String
  method : String
  grid_size : Rat
deriving DecidableEq

/-- JavaScript falsiness of `method` (a nullable string). -/
def jsFalsyStr : Option String → Bool
  | none => true
  | some m => decide (m = "")

/-- JavaScript falsiness of `gridSize` (a nullable number). -/
def jsFalsyNum : Option Rat → Bool
  | none => true
  | some g => decide (g = 0)

/-- Embeds `handleRunComparison` (ESRI3DComparisonApp.tsx lines 482 to 528)
composed with `runComparison` (api/analysis.ts): the guard rejects when any
of `readyToRun`, `analysisRun`, the two files, `method` or `gridSize` is
falsy, and otherwise submits the request built from the mappings, the method
and the grid size.  The TypeScript non-null assertions on the mapping fields
are rendered with `Option.getD`; the guard makes the defaults unreachable. -/
def handleRunComparison (s : CmpState) : Option ComparisonRequest :=
  if !readyToRun s || !s.analysisRun || s.originalZip.isNone || s.dlZip.isNone
      || jsFalsyStr s.method || jsFalsyNum s.gridSize then
    none
  else
    match s.method, s.gridSize with
    | some m, some g =>
        some { original_northing := s.originalMap.northing.getD ""
               original_easting := s.originalMap.easting.getD ""
               original_assay := s.originalMap.assay.getD ""
               dl_northing := s.dlMap.northing.getD ""
               dl_easting := s.dlMap.easting.getD ""
               dl_assay := s.dlMap.assay.getD ""
               method := m
               grid_size := g }
    | _, _ => none

/-- A concrete state reachable on the Comparison page: both files loaded,
columns fetched, mappings complete, analysis run, method `max` picked, and
`100` typed into the Grid Cell Size number input. -/
def gridBugState : CmpState where
  originalZip := some ⟨"original.zip", 1024⟩
  dlZip := some ⟨"dl.zip", 1024⟩
  originalColumns := ["Northing", "Easting", "Assay"]
  dlColumns := ["Northing", "Easting", "Assay"]
  originalMap := ⟨some "Northing", some "Easting", some "Assay"⟩
  dlMap := ⟨some "Northing", some "Easting", some "Assay"⟩
  analysisRun := true
  method := some "max"
  gridSize := handleGridInputChange (NumInput.num 100) (some 100000)
  busyRun := false

/-- Claim C1: the claim fails on the code.  In `gridBugState` the user typed
`100` into the grid-size input; `ControlsBar` flags the value as invalid
(`isInvalidGridLow`), yet `readyToRun` holds (its check is `gridSize >= 100`)
and `handleRunComparison` submits the request with `grid_size = 100`, which
is outside the caller-validated range `[1000, 900000]`. -/
theorem gridSize_out_of_range_submitted :
    readyToRun gridBugState = true
  ∧ isInvalidGridLow gridBugState.gridSize = true
  ∧ (handleRunComparison gridBugState).map ComparisonRequest.grid_size
      = some 100
  ∧ ¬(minGrid ≤ (100 : Rat) ∧ (100 : Rat) ≤ maxGrid) := by
  refine ⟨by decide, by decide, by decide, by decide⟩

/-! ### Method selection state machine (C2) -/

/-- The events that can change the `method` React state: a click on one of
the three `ControlsBar` tabs (or the arrow-key handler, which also picks an
index into `METHOD_OPTIONS`), and `resetComparison`, which sets it back to
`null`.  No other code writes `method`. -/
inductive MethodEvent where
  | select (i : Fin 3)
  | clear

/-- One transition of the `method` state. -/
def methodStep (_ : Option String) : MethodEvent → Option String
  | MethodEvent.select i => some (METHOD_OPTIONS.getD i "")
  | MethodEvent.clear => none

/-- The `method` values reachable from the initial `null` state through
`ControlsBar` interactions and resets. -/
inductive MethodReachable : Option String → Prop
  | init : MethodReachable none
  | step {m : Option String} (e : MethodEvent) :
      MethodReachable m → MethodReachable (methodStep m e)

theorem methodReachable_mem {m : Option String} (h : MethodReachable m) :
    m = none ∨ ∃ v, m = some v ∧ v ∈ METHOD_OPTIONS := by
  induction h with
  | init => exact Or.inl rfl
  | step e _ _ =>
      cases e with
      | clear => exact Or.inl rfl
      | select i =>
          refine Or.inr ⟨METHOD_OPTIONS.getD i "", rfl, ?_⟩
          fin_cases i <;> decide

/-- If `handleRunComparison` submits a request, its method field is exactly
the string held in the `method` state. -/
theorem handleRunComparison_method {s : CmpState} {r : ComparisonRequest}
    (h : handleRunComparison s = some r) : s.method = some r.method := by
  unfold handleRunComparison at h
  split at h
  · exact absurd h (by simp)
  · split at h
    · rename_i m g hm2 hg2
      cases h
      simpa using hm2
    · exact absurd h (by simp)

/-! The earlier `src/pages/Comparisons.js` page: its method dropdown also
offers `chi2`, but its Run Comparisons button is disabled unless
`dataLoaded` holds, `dataLoaded` is a placeholder flag that no code ever
sets to `true`, and the button has no click handler, so that page never
submits a comparison request. -/

/-- The dropdown options of the old Comparisons page (Comparisons.js lines
78 to 82). -/
def OLD_METHOD_OPTIONS : List String := ["max", "mean", "median", "chi2"]

/-- The view toggle values of the old Comparisons page. -/
def OLD_VIEWS : List String := ["original", "dl", "comparison"]

/-- React state of the old Comparisons page (Comparisons.js lines 66 to 69). -/
structure OldCmpState where
  method : String
  grid : Rat
  dataLoaded : Bool
  view : String
deriving DecidableEq

/-- Initial state of the old Comparisons page. -/
def oldInit : OldCmpState where
  method := "max"
  grid := 100
  dataLoaded := false
  view := "original"

/-- The state updates the old Comparisons page can perform: selecting a
method from its dropdown, editing the grid number, switching the view.
No event writes `dataLoaded` (the source never calls `setDataLoaded`). -/
inductive OldEvent where
  | setMethod (i : Fin 4)
  | setGrid (q : Rat)
  | setView (i : Fin 3)

/-- One transition of the old Comparisons page state. -/
def oldStep (s : OldCmpState) : OldEvent → OldCmpState
  | OldEvent.setMethod i => { s with method := OLD_METHOD_OPTIONS.getD i "" }
  | OldEvent.setGrid q => { s with grid := q }
  | OldEvent.setView i => { s with view := OLD_VIEWS.getD i "" }

/-- States of the old Comparisons page reachable from its initial state. -/
inductive OldReachable : OldCmpState → Prop
  | init : OldReachable oldInit
  | step {s : OldCmpState} (e : OldEvent) :
      OldReachable s → OldReachable (oldStep s e)

/-- Embeds the `disabled={!dataLoaded}` Run Comparisons button of the old
page: it is enabled exactly when `dataLoaded` holds. -/
def oldRunEnabled (s : OldCmpState) : Bool := s.dataLoaded

theorem oldReachable_not_loaded {s : OldCmpState} (h : OldReachable s) :
    s.dataLoaded = false := by
  induction h with
  | init => rfl
  | step e _ ih => cases e <;> simpa [oldStep] using ih

/-- Claim C2: every comparison request submitted by the app carries a method
in the closed enumeration `mean`, `median`, `max`: the `method` state is only
ever one of the three `ControlsBar` options (or `null`), and
`handleRunComparison` forwards it verbatim; the old Comparisons page, whose
dropdown also offers `chi2`, can never submit because its Run button stays
disabled in every reachable state. -/
theorem method_closed_enumeration (m : Option String) (s : CmpState)
    (r : ComparisonRequest) (t : OldCmpState)
    (hm : MethodReachable m) (hs : s.method = m)
    (hr : handleRunComparison s = some r) (ht : OldReachable t) :
    (r.method = "mean" ∨ r.method = "median" ∨ r.method = "max")
  ∧ oldRunEnabled t = false := by
  constructor
  · have hm' := handleRunComparison_method hr
    rcases methodReachable_mem hm with h0 | ⟨v, hv, hmem⟩
    · rw [hs, h0] at hm'
      exact absurd hm' (by simp)
    · rw [hs, hv] at hm'
      have : v = r.method := by injection hm'
      subst this
      simpa [METHOD_OPTIONS] using hmem
  · exact oldReachable_not_loaded ht

/-- A concrete ready state with method `mean` for the C2 witness. -/
def methodWitnessState : CmpState where
  originalZip := some ⟨"original.csv", 64⟩
  dlZip := some ⟨"dl.csv", 64⟩
  originalColumns := ["Northing", "Easting", "Assay"]
  dlColumns := ["Northing", "Easting", "Assay"]
  originalMap := ⟨some "Northing", some "Easting", some "Assay"⟩
  dlMap := ⟨some "Northing", some "Easting", some "Assay"⟩
  analysisRun := true
  method := some "mean"
  gridSize := some 100000
  busyRun := false

/-- The request `handleRunComparison` submits from `methodWitnessState`. -/
def methodWitnessRequest : ComparisonRequest where
  original_northing := "Northing"
  original_easting := "Easting"
  original_assay := "Assay"
  dl_northing := "Northing"
  dl_easting := "Easting"
  dl_assay := "Assay"
  method := "mean"
  grid_size := 100000

/-- Witness for C2 at a concrete reachable method value, state and request. -/
theorem method_closed_enumeration_witness :
    (methodWitnessRequest.method = "mean"
      ∨ methodWitnessRequest.method = "median"
      ∨ methodWitnessRequest.method = "max")
  ∧ oldRunEnabled oldInit = false :=
  method_closed_enumeration (some "mean") methodWitnessState
    methodWitnessRequest oldInit
    (MethodReachable.step (MethodEvent.select 0) MethodReachable.init)
    rfl (by decide) OldReachable.init

/-! ### Comparison grid (C3) -/

/-- Modelled from the spec: the per-cell rule of ComparisonGridBuilder, spec
section 4.3 and the `gridOut.cmp` payload rendered by the frontend: the
residual `dl - original` where both operands are non-null, `null` otherwise.
The backend that computes `cmp` is not part of this repository snapshot. -/
def cmpCell : Option Rat → Option Rat → Option Rat
  | some a, some b => some (b - a)
  | _, _ => none

/-- Modelled from the spec: ComparisonGridBuilder, spec section 4.3, applied
elementwise to the two aggregated grids serialized as nested arrays with
null markers (spec section 6). -/
def buildComparisonGrid (orig dl : List (List (Option Rat))) :
    List (List (Option Rat)) :=
  List.zipWith (List.zipWith cmpCell) orig dl

/-- Cell access into a nested-array grid, with `null` out of bounds. -/
def cellAt (g : List (List (Option Rat))) (i j : Nat) : Option Rat :=
  (g.getD i []).getD j none

theorem getD_zipWith_of_lt {α β γ : Type _} (f : α → β → γ) (l₁ : List α)
    (l₂ : List β) (i : Nat) (d₁ : α) (d₂ : β) (d₃ : γ)
    (h₁ : i < l₁.length) (h₂ : i < l₂.length) :
    (List.zipWith f l₁ l₂).getD i d₃ = f (l₁.getD i d₁) (l₂.getD i d₂) := by
  simp [List.getD_eq_getElem?_getD, List.getElem?_zipWith,
    List.getElem?_eq_getElem h₁, List.getElem?_eq_getElem h₂]

theorem cellAt_buildComparisonGrid (orig dl : List (List (Option Rat)))
    (i j : Nat) (hi : i < orig.length) (hi' : i < dl.length)
    (hj : j < (orig.getD i []).length) (hj' : j < (dl.getD i []).length) :
    cellAt (buildComparisonGrid orig dl) i j
      = cmpCell (cellAt orig i j) (cellAt dl i j) := by
  unfold cellAt buildComparisonGrid
  rw [getD_zipWith_of_lt (List.zipWith cmpCell) orig dl i [] [] [] hi hi']
  exact getD_zipWith_of_lt cmpCell _ _ j none none none hj hj'

/-- Claim C3: in-bounds cells of the comparison grid are non-null iff both
the original and the dl grid are non-null there, and where defined the value
is exactly `dl[i][j] - original[i][j]`. -/
theorem comparisonGrid_masking (orig dl : List (List (Option Rat)))
    (i j : Nat) (hi : i < orig.length) (hi' : i < dl.length)
    (hj : j < (orig.getD i []).length) (hj' : j < (dl.getD i []).length) :
    (cellAt (buildComparisonGrid orig dl) i j ≠ none
        ↔ cellAt orig i j ≠ none ∧ cellAt dl i j ≠ none)
  ∧ ∀ a b : Rat, cellAt orig i j = some a → cellAt dl i j = some b →
      cellAt (buildComparisonGrid orig dl) i j = some (b - a) := by
  rw [cellAt_buildComparisonGrid orig dl i j hi hi' hj hj']
  constructor
  · cases cellAt orig i j <;> cases cellAt dl i j <;> simp [cmpCell]
  · intro a b ha hb
    rw [ha, hb]
    rfl

/-- Witness for C3 on a concrete 2 by 2 grid pair. -/
theorem comparisonGrid_masking_witness :
    (cellAt
        (buildComparisonGrid [[some 1, none], [some 2, some 3]]
          [[some 5, some 7], [none, some 4]]) 1 1 ≠ none
      ↔ cellAt [[some 1, none], [some 2, some 3]] 1 1 ≠ none
          ∧ cellAt [[some 5, some 7], [none, some 4]] 1 1 ≠ none)
  ∧ ∀ a b : Rat, cellAt [[some 1, none], [some 2, some 3]] 1 1 = some a →
      cellAt [[some 5, some 7], [none, some 4]] 1 1 = some b →
      cellAt
        (buildComparisonGrid [[some 1, none], [some 2, some 3]]
          [[some 5, some 7], [none, some 4]]) 1 1 = some (b - a) :=
  comparisonGrid_masking [[some 1, none], [some 2, some 3]]
    [[some 5, some 7], [none, some 4]] 1 1 (by decide) (by decide)
    (by decide) (by decide)

/-! ### Distribution summary (C4) -/

/-- The strictly positive subset of a value column (spec sections 3 and 4.4:
the positivity filter applied before all distribution statistics). -/
def positives (l : List Rat) : List Rat := l.filter (fun v => decide (0 < v))

/-- Modelled from the spec: the classic interpolated median of spec section
4.2 and 4.4 (average of the two middle values for even counts), on the
sorted list. -/
def medianOf (l : List Rat) : Rat :=
  let s := l.mergeSort (fun a b => decide (a ≤ b))
  let n := s.length
  if n % 2 = 1 then s.getD (n / 2) 0
  else (s.getD (n / 2 - 1) 0 + s.getD (n / 2) 0) / 2

/-- Maximum of a list of rationals (0 for the empty list, which the callers
below never expose because they return null for empty input). -/
def listMax : List Rat → Rat
  | [] => 0
  | x :: xs => xs.foldl max x

/-- Minimum of a list of rationals, same convention as `listMax`. -/
def listMin : List Rat → Rat
  | [] => 0
  | x :: xs => xs.foldl min x

/-- Modelled from the spec: the sample variance (divide by `n - 1`, spec
section 4.4).  The standard deviation reported by the backend is this
value's square root, which is irrational in general; nullness and the data
it is computed from are identical. -/
def sampleVar (l : List Rat) : Rat :=
  let m := l.sum / (l.length : Rat)
  ((l.map (fun v => (v - m) ^ 2)).sum) / ((l.length : Rat) - 1)

/-- The `Summary` payload type of api/analysis.ts lines 3 to 9: a count and
four nullable statistics. -/
structure Summary where
  count : Nat
  mean : Option Rat
  median : Option Rat
  max : Option Rat
  std : Option Rat
deriving DecidableEq

/-- Modelled from the spec: DistributionSummarizer, spec section 4.4 — the
statistics are computed over the strictly positive subset of the values,
the non-count fields are null when that subset is empty, and std is null
when fewer than two positive values remain.  The backend computing this is
not part of this repository snapshot; the frontend consumes it through the
`Summary` type above. -/
def summarize (l : List Rat) : Summary :=
  let pos := positives l
  let n := pos.length
  { count := n
    mean := if n = 0 then none else some (pos.sum / (n : Rat))
    median := if n = 0 then none else some (medianOf pos)
    max := if n = 0 then none else some (listMax pos)
    std := if n < 2 then none else some (sampleVar pos) }

/-- Embeds the heatmap z-mapping of ESRI3DComparisonApp.tsx lines 1206 to
1210 and 1262 to 1265: `v && v > 0 ? Math.log10(v) : null` — a cell is
rendered (and fed to log10) exactly when it is non-null and strictly
positive.  Only definedness is modelled; the log10 value itself is real
valued. -/
def heatCellDisplayed : Option Rat → Bool
  | none => false
  | some v => !(decide (v = 0)) && decide (0 < v)

theorem positives_idem (l : List Rat) : positives (positives l) = positives l := by
  simp [positives, List.filter_filter]

/-- Claim C4: the summary statistics are computed over exactly the strictly
positive subset (filtering is idempotent, the count is the size of that
subset), the non-count fields are null exactly when the subset is empty
(std additionally when fewer than two values remain), and the log-scale
heatmap display path applies the same strict positivity rule. -/
theorem summary_positivity (l : List Rat) (x : Rat) :
    summarize l = summarize (positives l)
  ∧ (summarize l).count = (positives l).length
  ∧ ((summarize l).mean = none ↔ (summarize l).count = 0)
  ∧ ((summarize l).median = none ↔ (summarize l).count = 0)
  ∧ ((summarize l).max = none ↔ (summarize l).count = 0)
  ∧ ((summarize l).std = none ↔ (summarize l).count < 2)
  ∧ heatCellDisplayed none = false
  ∧ heatCellDisplayed (some x) = decide (0 < x) := by
  refine ⟨?_, rfl, ?_, ?_, ?_, ?_, rfl, ?_⟩
  · unfold summarize
    rw [positives_idem]
  · by_cases h : (positives l).length = 0 <;> simp [summarize, h]
  · by_cases h : (positives l).length = 0 <;> simp [summarize, h]
  · by_cases h : (positives l).length = 0 <;> simp [summarize, h]
  · by_cases h : (positives l).length < 2 <;>
      simp [summarize, h]
  · by_cases h : x = 0 <;> simp [heatCellDisplayed, h]

/-! ### Grid extent coverage and heatmap axes (C5, C6) -/

theorem foldl_min_le_init (a : Rat) (l : List Rat) : l.foldl min a ≤ a := by
  induction l generalizing a with
  | nil => simp
  | cons y ys ih => exact le_trans (ih (min a y)) (min_le_left a y)

theorem foldl_min_le_mem (x : Rat) (l : List Rat) :
    ∀ a : Rat, x ∈ l → l.foldl min a ≤ x := by
  induction l with
  | nil => intro a h; cases h
  | cons y ys ih =>
      intro a h
      rcases List.mem_cons.mp h with h | h
      · subst h
        exact le_trans (foldl_min_le_init (min a x) ys) (min_le_right a x)
      · exact ih (min a y) h

theorem init_le_foldl_max (a : Rat) (l : List Rat) : a ≤ l.foldl max a := by
  induction l generalizing a with
  | nil => simp
  | cons y ys ih => exact le_trans (le_max_left a y) (ih (max a y))

theorem mem_le_foldl_max (x : Rat) (l : List Rat) :
    ∀ a : Rat, x ∈ l → x ≤ l.foldl max a := by
  induction l with
  | nil => intro a h; cases h
  | cons y ys ih =>
      intro a h
      rcases List.mem_cons.mp h with h | h
      · subst h
        exact le_trans (le_max_right a x) (init_le_foldl_max (max a x) ys)
      · exact ih (max a y) h

theorem listMin_le_of_mem {x : Rat} {l : List Rat} (hx : x ∈ l) :
    listMin l ≤ x := by
  cases l with
  | nil => cases hx
  | cons y ys =>
      rcases List.mem_cons.mp hx with h | h
      · subst h
        exact foldl_min_le_init x ys
      · exact foldl_min_le_mem x ys y h

theorem le_listMax_of_mem {x : Rat} {l : List Rat} (hx : x ∈ l) :
    x ≤ listMax l := by
  cases l with
  | nil => cases hx
  | cons y ys =>
      rcases List.mem_cons.mp hx with h | h
      · subst h
        exact init_le_foldl_max x ys
      · exact mem_le_foldl_max x ys y h

/-- Modelled from the spec: GridSpecBuilder cell count along one axis, spec
section 4.1: `nx = max(1, ceil((xmax - xmin) / gridSize))`; a degenerate
extent still yields one cell. -/
def nCells (lo hi g : Rat) : Nat := max 1 (Int.toNat ⌈(hi - lo) / g⌉)

/-- Modelled from the spec: SpatialAggregator cell index, spec section 4.2:
`floor((x - xmin) / cellX)` clamped into `[0, nx - 1]` (so a point exactly
on the maximal edge falls in the last cell, never outside). -/
def cellIndex (lo g : Rat) (n : Nat) (x : Rat) : Nat :=
  min (n - 1) (Int.toNat ⌊(x - lo) / g⌋)

/-- The `coord_units` flag of the grid payload. -/
inductive CoordUnits where
  | meters
  | degrees
deriving DecidableEq

/-- The fields of `gridOut` consumed by `axesLikeNotebook`
(ESRI3DComparisonApp.tsx lines 2256 to 2264). -/
structure GridOutMeta where
  xmin : Rat
  ymin : Rat
  nx : Nat
  ny : Nat
  cell_x : Rat
  cell_y : Rat
  coord_units : Option CoordUnits
deriving DecidableEq

/-- The numeric and textual outputs of `axesLikeNotebook` that the claims
inspect: axis ranges, axis titles and the tick format. -/
structure AxesLayout where
  xtitle : String
  ytitle : String
  tickformat : String
  xrange : Rat × Rat
  yrange : Rat × Rat
deriving DecidableEq

/-- Embeds `axesLikeNotebook` (ESRI3DComparisonApp.tsx lines 2256 to 2306):
`meters` iff `coord_units !== "degrees"`; the x range is
`[xmin, xmin + nx * cell_x]`, the y range `[ymin, ymin + ny * cell_y]`;
units feed only the titles and the tick format. -/
def axesLikeNotebook (g : GridOutMeta) : AxesLayout :=
  let meters : Bool := g.coord_units ≠ some CoordUnits.degrees
  { xtitle := if meters then "Easting (m)" else "Longitude (°)"
    ytitle := if meters then "Northing (m)" else "Latitude (°)"
    tickformat := if meters then ",.0f" else ".2f"
    xrange := (g.xmin, g.xmin + (g.nx : Rat) * g.cell_x)
    yrange := (g.ymin, g.ymin + (g.ny : Rat) * g.cell_y) }

theorem ceil_le_nCells (lo hi g : Rat) :
    (⌈(hi - lo) / g⌉ : Rat) ≤ (nCells lo hi g : Rat) := by
  have h1 : ⌈(hi - lo) / g⌉ ≤ (Int.toNat ⌈(hi - lo) / g⌉ : Int) :=
    Int.self_le_toNat _
  have h2 : (Int.toNat ⌈(hi - lo) / g⌉ : Int) ≤ (nCells lo hi g : Int) := by
    exact_mod_cast Nat.le_max_right 1 (Int.toNat ⌈(hi - lo) / g⌉)
  exact_mod_cast le_trans h1 h2

/-- Claim C5: every coordinate of the input lies inside the grid rectangle
`[xmin, xmin + nx * cell]` (points on the maximal edge included, since the
cell index is clamped into the last cell rather than dropped), the cell
index of every point is below `nx`, and the heatmap axis ranges equal
exactly the rectangle bounds. -/
theorem grid_covers_extent_axes (xs : List Rat) (g x : Rat)
    (go : GridOutMeta) (hg : 0 < g) (hx : x ∈ xs) :
    (listMin xs ≤ x
      ∧ x ≤ listMin xs + (nCells (listMin xs) (listMax xs) g : Rat) * g)
  ∧ cellIndex (listMin xs) g (nCells (listMin xs) (listMax xs) g) x
      < nCells (listMin xs) (listMax xs) g
  ∧ (axesLikeNotebook go).xrange
      = (go.xmin, go.xmin + (go.nx : Rat) * go.cell_x)
  ∧ (axesLikeNotebook go).yrange
      = (go.ymin, go.ymin + (go.ny : Rat) * go.cell_y) := by
  refine ⟨⟨listMin_le_of_mem hx, ?_⟩, ?_, rfl, rfl⟩
  · have hhi : x ≤ listMax xs := le_listMax_of_mem hx
    have hgap : listMax xs - listMin xs
        ≤ (⌈(listMax xs - listMin xs) / g⌉ : Rat) * g := by
      have h1 : (listMax xs - listMin xs) / g
          ≤ (⌈(listMax xs - listMin xs) / g⌉ : Rat) := Int.le_ceil _
      calc listMax xs - listMin xs
          = ((listMax xs - listMin xs) / g) * g := by
            rw [div_mul_cancel₀ _ (ne_of_gt hg)]
        _ ≤ (⌈(listMax xs - listMin xs) / g⌉ : Rat) * g :=
            mul_le_mul_of_nonneg_right h1 (le_of_lt hg)
    have hn : (⌈(listMax xs - listMin xs) / g⌉ : Rat) * g
        ≤ (nCells (listMin xs) (listMax xs) g : Rat) * g :=
      mul_le_mul_of_nonneg_right (ceil_le_nCells _ _ _) (le_of_lt hg)
    linarith
  · have hpos : 0 < nCells (listMin xs) (listMax xs) g :=
      lt_of_lt_of_le Nat.one_pos (Nat.le_max_left _ _)
    exact lt_of_le_of_lt (Nat.min_le_left _ _) (Nat.sub_lt hpos Nat.one_pos)

/-- Witness for C5 at the concrete input `xs = [0, 5]`, `g = 2`, `x = 5`:
the grid is three cells wide, covers `[0, 6]`, and the point on the maximal
extent lands in cell 2. -/
theorem grid_covers_extent_axes_witness :
    (listMin [(0 : Rat), 5] ≤ (5 : Rat)
      ∧ (5 : Rat) ≤ listMin [(0 : Rat), 5]
          + (nCells (listMin [(0 : Rat), 5]) (listMax [(0 : Rat), 5]) 2 : Rat) * 2)
  ∧ cellIndex (listMin [(0 : Rat), 5]) 2
      (nCells (listMin [(0 : Rat), 5]) (listMax [(0 : Rat), 5]) 2) 5
      < nCells (listMin [(0 : Rat), 5]) (listMax [(0 : Rat), 5]) 2
  ∧ (axesLikeNotebook ⟨0, 0, 3, 3, 2, 2, some CoordUnits.meters⟩).xrange
      = ((0 : Rat), (0 : Rat) + ((3 : Nat) : Rat) * 2)
  ∧ (axesLikeNotebook ⟨0, 0, 3, 3, 2, 2, some CoordUnits.meters⟩).yrange
      = ((0 : Rat), (0 : Rat) + ((3 : Nat) : Rat) * 2) :=
  grid_covers_extent_axes [(0 : Rat), 5] 2 5
    ⟨0, 0, 3, 3, 2, 2, some CoordUnits.meters⟩ (by norm_num) (by simp)

/-- Claim C6: `coord_units` affects labeling only: two grid outputs that are
identical except for the units flag produce axis layouts with identical
numeric ranges, differing only in the axis titles and the tick format. -/
theorem coordUnits_labeling_only (g : GridOutMeta) :
    (axesLikeNotebook { g with coord_units := some CoordUnits.meters }).xrange
      = (axesLikeNotebook { g with coord_units := some CoordUnits.degrees }).xrange
  ∧ (axesLikeNotebook { g with coord_units := some CoordUnits.meters }).yrange
      = (axesLikeNotebook { g with coord_units := some CoordUnits.degrees }).yrange
  ∧ (axesLikeNotebook { g with coord_units := some CoordUnits.meters }).xtitle
      = "Easting (m)"
  ∧ (axesLikeNotebook { g with coord_units := some CoordUnits.degrees }).xtitle
      = "Longitude (°)"
  ∧ (axesLikeNotebook { g with coord_units := some CoordUnits.meters }).ytitle
      = "Northing (m)"
  ∧ (axesLikeNotebook { g with coord_units := some CoordUnits.degrees }).ytitle
      = "Latitude (°)"
  ∧ (axesLikeNotebook { g with coord_units := some CoordUnits.meters }).tickformat
      = ",.0f"
  ∧ (axesLikeNotebook { g with coord_units := some CoordUnits.degrees }).tickformat
      = ".2f" := by
  refine ⟨rfl, rfl, ?_, ?_, ?_, ?_, ?_, ?_⟩ <;> simp [axesLikeNotebook]

/-! ### Log-scale histogram (C7) -/

/-- Modelled from the spec: the lower edge exponent of HistogramBuilder in
log mode, spec section 4.5: `floor(log10(min positive value))`. -/
def logEdgeLo (l : List Rat) : Int := Int.log 10 (listMin l)

/-- Modelled from the spec: the upper edge exponent,
`ceil(log10(max value))`. -/
def logEdgeHi (l : List Rat) : Int := Int.clog 10 (listMax l)

/-- Modelled from the spec: the number of log bins; degenerate input
(`min == max` on one power of ten) still yields a single bin. -/
def logBinCount (l : List Rat) : Nat :=
  max 1 (Int.toNat (logEdgeHi l - logEdgeLo l))

/-- Modelled from the spec: HistogramBuilder log-mode bin edges, spec
section 4.5: the powers of ten `10^k` for `k` from `floor(log10(min))` to
`ceil(log10(max))`. -/
def logBinEdges (l : List Rat) : List Rat :=
  (List.range (logBinCount l + 1)).map
    (fun (j : Nat) => (10 : Rat) ^ (logEdgeLo l + (j : Int)))

/-- Modelled from the spec: locating a value's edge interval by binary
search over the monotone power-of-ten edges: the interval of `v` is
`floor(log10 v) - floor(log10 min)`, clamped into the last bin so that a
value equal to the maximal edge is counted there rather than dropped. -/
def logBinIndex (l : List Rat) (v : Rat) : Nat :=
  min (logBinCount l - 1) (Int.toNat (Int.log 10 v - logEdgeLo l))

/-- Modelled from the spec: the per-bin counts of the log histogram. -/
def logBinCounts (l : List Rat) : List Nat :=
  (List.range (logBinCount l)).map
    (fun j => l.countP (fun v => decide (logBinIndex l v = j)))

/-- Embeds `superscript` (ESRI3DComparisonApp.tsx lines 2233 to 2250): map
minus and digit characters to their superscript forms, leave the rest. -/
def superscriptChar (c : Char) : Char :=
  if c = '-' then '⁻'
  else if c = '0' then '⁰'
  else if c = '1' then '¹'
  else if c = '2' then '²'
  else if c = '3' then '³'
  else if c = '4' then '⁴'
  else if c = '5' then '⁵'
  else if c = '6' then '⁶'
  else if c = '7' then '⁷'
  else if c = '8' then '⁸'
  else if c = '9' then '⁹'
  else c

/-- `superscript` applied to the decimal rendering of an integer exponent. -/
def superscriptOfInt (n : Int) : String :=
  String.mk ((toString n).toList.map superscriptChar)

/-- Embeds the log-mode tick values of `createHistogramPlot`
(ESRI3DComparisonApp.tsx lines 2151 to 2159): the powers of ten `10^i` for
integer `i` from `ceil(log10(bin_edges[0]))` to
`floor(log10(bin_edges[last]))`. -/
def histTickVals (edges : List Rat) : List Rat :=
  (List.range (Int.toNat (Int.log 10 (edges.getD (edges.length - 1) 1)
      - Int.clog 10 (edges.getD 0 1) + 1))).map
    (fun (i : Nat) => (10 : Rat) ^ (Int.clog 10 (edges.getD 0 1) + (i : Int)))

/-- Embeds the log-mode tick labels of `createHistogramPlot` (line 2160):
each tick value is labeled `10` followed by the superscript of its log10. -/
def histTickText (edges : List Rat) : List String :=
  (histTickVals edges).map
    (fun v => "10" ++ superscriptOfInt (Int.log 10 v))

theorem log10_zpow (z : Int) : Int.log 10 ((10 : Rat) ^ z) = z := by
  have h : ((10 : ℕ) : Rat) = (10 : Rat) := by norm_cast
  rw [← h]
  exact Int.log_zpow (by norm_num) z

theorem clog10_zpow (z : Int) : Int.clog 10 ((10 : Rat) ^ z) = z := by
  have h : ((10 : ℕ) : Rat) = (10 : Rat) := by norm_cast
  rw [← h]
  exact Int.clog_zpow (by norm_num) z

theorem zpow10_mono {m n : Int} (h : m ≤ n) :
    (10 : Rat) ^ m ≤ (10 : Rat) ^ n :=
  zpow_le_zpow_right₀ (by norm_num) h

theorem logBinEdges_getD {l : List Rat} {j : Nat}
    (hj : j < logBinCount l + 1) :
    (logBinEdges l).getD j 1 = (10 : Rat) ^ (logEdgeLo l + (j : Int)) := by
  rw [logBinEdges, List.getD_eq_getElem?_getD, List.getElem?_map,
    List.getElem?_range hj]
  rfl

theorem logBinEdges_length (l : List Rat) :
    (logBinEdges l).length = logBinCount l + 1 := by
  simp [logBinEdges]

theorem logBinIndex_lt (l : List Rat) (v : Rat) :
    logBinIndex l v < logBinCount l := by
  have hpos : 0 < logBinCount l :=
    lt_of_lt_of_le Nat.one_pos (Nat.le_max_left _ _)
  exact lt_of_le_of_lt (Nat.min_le_left _ _) (Nat.sub_lt hpos Nat.one_pos)

theorem sum_indicator_range (m n : Nat) :
    ((List.range n).map (fun j => if m = j then 1 else 0)).sum
      = if m < n then 1 else 0 := by
  induction n with
  | zero => simp
  | succ k ih =>
      rw [List.range_succ, List.map_append, List.sum_append, ih]
      simp only [List.map_cons, List.map_nil, List.sum_cons, List.sum_nil]
      split_ifs <;> omega

theorem sum_map_add (g h : Nat → Nat) (L : List Nat) :
    (L.map (fun j => g j + h j)).sum = (L.map g).sum + (L.map h).sum := by
  induction L with
  | nil => simp
  | cons x xs ih =>
      simp only [List.map_cons, List.sum_cons, ih]
      omega

theorem countP_partition (f : Rat → Nat) (n : Nat) :
    ∀ l : List Rat, (∀ v ∈ l, f v < n) →
    ((List.range n).map (fun j => l.countP (fun v => decide (f v = j)))).sum
      = l.length := by
  intro l
  induction l with
  | nil => intro _; simp
  | cons v t ih =>
      intro h
      have hv : f v < n := h v (List.mem_cons_self v t)
      have ht : ∀ w ∈ t, f w < n := fun w hw => h w (List.mem_cons_of_mem v hw)
      simp only [List.countP_cons, decide_eq_true_eq]
      rw [sum_map_add (fun j => t.countP (fun v => decide (f v = j)))
        (fun j => if f v = j then 1 else 0) (List.range n)]
      rw [ih ht, sum_indicator_range, if_pos hv, List.length_cons]

/-- Claim C7: in log mode every histogram bin edge is `10^k` for an integer
`k`; the bin counts sum to the number of (filtered) values, no value being
dropped by the interval locator; the axis tick values computed by
`createHistogramPlot` for these edges are exactly the edges themselves, all
powers of ten lying between the first and the last bin edge; and every tick
is labeled with the power-of-ten text of its exponent. -/
theorem log_histogram_properties (l : List Rat) :
    (∀ e ∈ logBinEdges l, ∃ k : Int, e = (10 : Rat) ^ k)
  ∧ (∀ v ∈ l, logBinIndex l v < logBinCount l)
  ∧ (logBinCounts l).sum = l.length
  ∧ histTickVals (logBinEdges l) = logBinEdges l
  ∧ (∀ t ∈ histTickVals (logBinEdges l),
        (∃ k : Int, t = (10 : Rat) ^ k)
      ∧ (logBinEdges l).getD 0 1 ≤ t
      ∧ t ≤ (logBinEdges l).getD ((logBinEdges l).length - 1) 1)
  ∧ histTickText (logBinEdges l)
      = (List.range (logBinCount l + 1)).map
          (fun (j : Nat) => "10" ++ superscriptOfInt (logEdgeLo l + (j : Int))) := by
  have hedges : ∀ e ∈ logBinEdges l, ∃ j : Nat, j < logBinCount l + 1
      ∧ e = (10 : Rat) ^ (logEdgeLo l + (j : Int)) := by
    intro e he
    rcases List.mem_map.mp he with ⟨j, hj, rfl⟩
    exact ⟨j, List.mem_range.mp hj, rfl⟩
  have h0 : (logBinEdges l).getD 0 1 = (10 : Rat) ^ (logEdgeLo l) := by
    have h := @logBinEdges_getD l 0 (by omega)
    simpa using h
  have hlast : (logBinEdges l).getD ((logBinEdges l).length - 1) 1
      = (10 : Rat) ^ (logEdgeLo l + (logBinCount l : Int)) := by
    rw [logBinEdges_length, Nat.add_sub_cancel]
    exact @logBinEdges_getD l (logBinCount l) (by omega)
  have hticks : histTickVals (logBinEdges l) = logBinEdges l := by
    rw [histTickVals, h0, hlast, clog10_zpow, log10_zpow]
    have harith : Int.toNat
        (logEdgeLo l + (logBinCount l : Int) - logEdgeLo l + 1)
        = logBinCount l + 1 := by
      omega
    rw [harith, logBinEdges]
  refine ⟨?_, fun v _ => logBinIndex_lt l v, ?_, hticks, ?_, ?_⟩
  · intro e he
    rcases hedges e he with ⟨j, _, rfl⟩
    exact ⟨logEdgeLo l + (j : Int), rfl⟩
  · exact countP_partition (logBinIndex l) (logBinCount l) l
      (fun v _ => logBinIndex_lt l v)
  · intro t ht
    rw [hticks] at ht
    rcases hedges t ht with ⟨j, hj, rfl⟩
    refine ⟨⟨logEdgeLo l + (j : Int), rfl⟩, ?_, ?_⟩
    · rw [h0]
      exact zpow10_mono (by omega)
    · rw [hlast]
      exact zpow10_mono (by omega)
  · rw [histTickText, hticks, logBinEdges, List.map_map]
    refine List.map_congr_left ?_
    intro j _
    simp only [Function.comp_apply, log10_zpow]

/-! ### RowPairer request bodies and the rounding default (C8) -/

/-- The user-selected coordinate and value columns for both sides
(`SelectedColumns`, api/data.ts row-pairing client, lines 68 to 71). -/
structure SelectedColumns where
  origEasting : String
  origNorthing : String
  origAssay : String
  dlEasting : String
  dlNorthing : String
  dlAssay : String
deriving DecidableEq

/-- The JSON body of `POST /api/analysis/run_comparison` (row-pairing
client `runComparison`, api/data.ts lines 133 to 153). -/
structure RowPairBody where
  run_token : String
  orig_x : String
  orig_y : String
  orig_val : String
  dl_x : String
  dl_y : String
  dl_val : String
  rounding : Int
deriving DecidableEq

/-- Embeds the row-pairing `runComparison` (api/data.ts lines 133 to 153):
the TypeScript signature is `rounding: number = 6`, so an omitted argument
(modelled as `none`) is sent as `6`. -/
def rowPairComparisonBody (run_token : String) (sel : SelectedColumns)
    (rounding : Option Int) : RowPairBody :=
  { run_token := run_token
    orig_x := sel.origEasting
    orig_y := sel.origNorthing
    orig_val := sel.origAssay
    dl_x := sel.dlEasting
    dl_y := sel.dlNorthing
    dl_val := sel.dlAssay
    rounding := rounding.getD 6 }

/-- The multipart form of `POST /api/analysis/run_comparison_files`
(`runComparisonFiles`, api/data.ts lines 159 to 181); file parts omitted. -/
structure RowPairFilesForm where
  orig_x : String
  orig_y : String
  orig_val : String
  dl_x : String
  dl_y : String
  dl_val : String
  rounding : Int
deriving DecidableEq

/-- Embeds `runComparisonFiles` (api/data.ts lines 159 to 181), whose
signature is also `rounding: number = 6`. -/
def rowPairComparisonFilesForm (sel : SelectedColumns)
    (rounding : Option Int) : RowPairFilesForm :=
  { orig_x := sel.origEasting
    orig_y := sel.origNorthing
    orig_val := sel.origAssay
    dl_x := sel.dlEasting
    dl_y := sel.dlNorthing
    dl_val := sel.dlAssay
    rounding := rounding.getD 6 }

/-- The JSON body of `POST /api/analysis/export_plots` (row-pairing client
`exportPlots`, api/data.ts lines 187 to 209). -/
structure RowPairExportBody where
  run_token : String
  filename : String
  orig_x : String
  orig_y : String
  orig_val : String
  dl_x : String
  dl_y : String
  dl_val : String
  rounding : Int
deriving DecidableEq

/-- Embeds the row-pairing `exportPlots` (api/data.ts lines 187 to 209):
`filename: args.filename || "comparison_export.csv"` and
`rounding: args.rounding ?? 6`. -/
def rowPairExportBody (run_token : String) (filename : Option String)
    (sel : SelectedColumns) (rounding : Option Int) : RowPairExportBody :=
  { run_token := run_token
    filename :=
      match filename with
      | some f => if f = "" then "comparison_export.csv" else f
      | none => "comparison_export.csv"
    orig_x := sel.origEasting
    orig_y := sel.origNorthing
    orig_val := sel.origAssay
    dl_x := sel.dlEasting
    dl_y := sel.dlNorthing
    dl_val := sel.dlAssay
    rounding := rounding.getD 6 }

/-- Claim C8: the row-pairing `rounding` parameter is an integer defaulting
to 6: every row-pairing comparison call (token or files variant) and every
export call that omits the rounding argument sends `rounding = 6`, and an
explicit argument is forwarded unchanged. -/
theorem rounding_defaults_to_six (tok : String) (sel : SelectedColumns)
    (f : Option String) (r : Int) :
    (rowPairComparisonBody tok sel none).rounding = 6
  ∧ (rowPairComparisonFilesForm sel none).rounding = 6
  ∧ (rowPairExportBody tok f sel none).rounding = 6
  ∧ (rowPairComparisonBody tok sel (some r)).rounding = r
  ∧ (rowPairComparisonFilesForm sel (some r)).rounding = r
  ∧ (rowPairExportBody tok f sel (some r)).rounding = r :=
  ⟨rfl, rfl, rfl, rfl, rfl, rfl⟩

/-! ### fetchColumns error handling and token persistence (C10) -/

/-- The `ColumnsResponse` payload (api/data.ts lines 4 to 8).  The declared
type makes `run_token` mandatory, but `fetchColumns` guards it with
`data?.run_token`, so it is modelled as optional. -/
structure ColumnsResponse where
  original_columns : List String
  dl_columns : List String
  run_token : Option String
deriving DecidableEq

/-- The text of the engine-level JSON parse failure (`SyntaxError`) raised
by `res.json()` on an ok response whose body is not valid JSON; the exact
wording is engine dependent and irrelevant to the claims. -/
def jsonParseErrorMsg : String := "Unexpected end of JSON input"

/-- The error message thrown by `fetchColumns` for a non-ok response
(api/data.ts line 33): `HTTP <status> — <detail or fallback>`, where
`detail` is what the catch-guarded detail extraction produced (`none` when
the error body was unreadable, which falls back like the empty string). -/
def detailOrFallback : Option String → String
  | some m => if m = "" then "Failed to fetch columns" else m
  | none => "Failed to fetch columns"

def httpErrorMsg (status : Nat) (detail : Option String) : String :=
  "HTTP " ++ toString status ++ " — " ++ detailOrFallback detail

/-- Writing the run token to localStorage (`localStorage.setItem`). -/
def storageSet (k v : String) (store : List (String × String)) :
    List (String × String) :=
  (k, v) :: store

/-- Embeds `fetchColumns` (api/data.ts lines 13 to 48) over the observable
inputs: whether the response is ok, its status, the extracted error detail,
the parsed body (`none` when the body is not valid JSON, in which case
`res.json()` rejects), the current localStorage contents, and whether the
storage write throws.  Returns the result (or thrown message) and the new
storage: a truthy `run_token` is persisted, and a storage failure is caught
and ignored. -/
def fetchColumnsModel (ok : Bool) (status : Nat) (errDetail : Option String)
    (body : Option ColumnsResponse) (store : List (String × String))
    (storageFails : Bool) :
    Except String ColumnsResponse × List (String × String) :=
  if !ok then
    (Except.error (httpErrorMsg status errDetail), store)
  else
    match body with
    | none => (Except.error jsonParseErrorMsg, store)
    | some data =>
        match data.run_token with
        | some tok =>
            if tok = "" then (Except.ok data, store)
            else if storageFails then (Except.ok data, store)
            else (Except.ok data, storageSet "run_token" tok store)
        | none => (Except.ok data, store)

/-- Whether a call result is a normal return rather than a throw. -/
def exceptOk : Except String ColumnsResponse → Bool
  | Except.ok _ => true
  | Except.error _ => false

/-- Claim C10 counterexample: the claim says `fetchColumns` returns a parsed
response whenever the HTTP response is ok, but on an ok response whose body
is not valid JSON, `res.json()` rejects and `fetchColumns` throws a JSON
parse error (which does not carry the HTTP status); here at status 200 with
an unreadable body it throws instead of returning. -/
theorem fetchColumns_ok_can_throw :
    exceptOk (fetchColumnsModel true 200 none none [] false).fst = false
  ∧ (fetchColumnsModel true 200 none none [] false).fst
      = Except.error jsonParseErrorMsg := by
  exact ⟨rfl, rfl⟩

/-- Claim C10, amended: `fetchColumns` returns a parsed response iff the
response is ok and its body parses as JSON; every non-ok response throws a
message containing the HTTP status; a storage failure never changes what is
returned or thrown; and on success a non-empty `run_token` is persisted to
localStorage. -/
theorem fetchColumns_error_handling (ok : Bool) (status : Nat)
    (d : Option String) (body : Option ColumnsResponse)
    (st : List (String × String)) (sf : Bool)
    (cols dcols : List String) (tok : String) :
    (exceptOk (fetchColumnsModel ok status d body st sf).fst
        = (ok && body.isSome))
  ∧ ((fetchColumnsModel false status d body st sf).fst
        = Except.error (httpErrorMsg status d))
  ∧ (∃ pre post : String,
        httpErrorMsg status d = pre ++ toString status ++ post)
  ∧ ((fetchColumnsModel ok status d body st true).fst
        = (fetchColumnsModel ok status d body st false).fst)
  ∧ ((fetchColumnsModel true status d
        (some ⟨cols, dcols, some tok⟩) st false).snd
        = (if tok = "" then st else storageSet "run_token" tok st)) := by
  have hmsg : httpErrorMsg status d
      = "HTTP " ++ toString status ++ (" — " ++ detailOrFallback d) := by
    simp only [httpErrorMsg, String.append_assoc]
  refine ⟨?_, rfl, ⟨"HTTP ", " — " ++ detailOrFallback d, hmsg⟩, ?_, ?_⟩
  · cases ok with
    | false => rfl
    | true =>
        cases body with
        | none => rfl
        | some data =>
            cases hd : data.run_token with
            | none => simp [fetchColumnsModel, exceptOk, hd]
            | some t =>
                by_cases ht : t = "" <;> cases sf <;>
                  simp [fetchColumnsModel, exceptOk, hd, ht]
  · cases ok with
    | false => rfl
    | true =>
        cases body with
        | none => rfl
        | some data =>
            cases hd : data.run_token with
            | none => simp [fetchColumnsModel, hd]
            | some t =>
                by_cases ht : t = "" <;> simp [fetchColumnsModel, hd, ht]
  · by_cases ht : tok = "" <;> simp [fetchColumnsModel, ht]

end EsriApp
